import Mathlib

/-!
Verification of the Clawlett / Claw-Wallet swap scripts.

The repository holds two variants of an agent-driven token-swap pipeline on
Base: `claw-wallet/scripts/swap.js` (Aerodrome direct swaps) and
`clawlett/scripts/swap.js` (an improved Aerodrome variant plus a CoW-Protocol
batch-auction flow).  The definitions below are a shallow embedding of the
arithmetic, validation, token-resolution and control-flow logic of those
scripts: JavaScript `Number` slippage fractions become rationals, `BigInt`
token amounts become naturals (or integers where a subtraction may go
negative), fallible code returns `Except`, and the effectful main flows
return an explicit trace of the external calls they perform.
-/

namespace Swap

/-- Error taxonomy of the swap scripts (spec section 7), covering the throw
sites of the embedded functions. -/
inductive SwapError where
  | invalidSlippage
  | missingQuote
  | malformedCalldata
  | valueOnErc20In
  | valueExceedsAmountIn
  | badRecipient
  | tokenNotFound (symbol : String)
  | protectedNoMapping (symbol : String)
  | contractCallFailed
  | unknownOrderKind (kind : String)
  | unknownBalanceType (balance : String)
  deriving DecidableEq, Repr

/-! ## Slippage parsing and minimum-output computation (clawlett swap.js) -/

/-- JavaScript `Math.round` on a non-negative rational: round half toward
positive infinity, i.e. the floor of `q + 1/2`. -/
def jsRound (q : ℚ) : ℤ := ⌊q + 1/2⌋

/-- Embedding of `parseSlippageBps` (clawlett swap.js).  The input is the
JavaScript `Number` slippage fraction; `none` models a non-finite value
(`NaN` or an infinity), which fails the `Number.isFinite` guard.  A finite
value outside `[0, 0.5]` is rejected; otherwise the value is converted to
basis points with `Math.round(value * 10000)`. -/
def parseSlippageBps (value : Option ℚ) : Except SwapError ℕ :=
  match value with
  | none => .error .invalidSlippage
  | some v =>
    if v < 0 ∨ v > 1/2 then .error .invalidSlippage
    else .ok (jsRound (v * 10000)).toNat

/-- Embedding of the fallback minimum-output formula of clawlett swap.js
(`quote.amountOut * BigInt(10000 - slippageBps) / 10000n`): truncating
integer division on non-negative `BigInt` amounts is `Nat` division. -/
def computeMinAmountOut (amountOut : ℕ) (bps : ℕ) : ℕ :=
  amountOut * (10000 - bps) / 10000

/-- The minimum-output value used by clawlett swap.js: the quote-supplied
`minAmountOut` when it is present and non-zero (JavaScript `||` treats `0n`
as falsy), otherwise the basis-point computation on `amountOut`. -/
def minAmountOutOfSlippage (slippage : Option ℚ) (quoteMin : Option ℕ)
    (amountOut : ℕ) : Except SwapError ℕ := do
  let bps ← parseSlippageBps slippage
  match quoteMin with
  | some m => if m = 0 then pure (computeMinAmountOut amountOut bps) else pure m
  | none => pure (computeMinAmountOut amountOut bps)

/-! ## String helpers

JavaScript string primitives (`startsWith`, `toUpperCase`, `toLowerCase`,
`length`) are embedded as structural functions over the character list of a
`String`, so that every definition evaluates by kernel reduction. -/

/-- Character-list prefix test, embedding JavaScript `startsWith`. -/
def charsLeading : List Char → List Char → Bool
  | [], _ => true
  | _ :: _, [] => false
  | c :: cs, d :: ds => c == d && charsLeading cs ds

/-- JavaScript `s.startsWith(p)`. -/
def strStartsWith (s p : String) : Bool := charsLeading p.data s.data

/-- JavaScript `s.length` (the scripts only apply it to ASCII data, where
UTF-16 length and character count agree). -/
def strLength (s : String) : ℕ := s.data.length

/-- JavaScript `s.toUpperCase()` on ASCII data. -/
def strUpper (s : String) : String := ⟨s.data.map Char.toUpper⟩

/-- JavaScript `s.toLowerCase()` on ASCII data. -/
def strLower (s : String) : String := ⟨s.data.map Char.toLower⟩

/-- JavaScript `s.trim()`: strip leading and trailing whitespace. -/
def strTrim (s : String) : String :=
  ⟨((s.data.dropWhile Char.isWhitespace).reverse.dropWhile Char.isWhitespace).reverse⟩

/-! ## Quote payload validation (clawlett swap.js, validateQuotePayload) -/

/-- A quote payload as received from the quote service: `none` fields model
absent JavaScript properties.  `value` is the native value the quote asks to
attach. -/
structure QuotePayload where
  calldata : Option String
  value : Option ℤ
  recipient : Option String
  deriving DecidableEq, Repr

/-- Embedding of `requireHexData` (clawlett swap.js): the field must be a
string starting with `0x` whose length is even. -/
def requireHexData (data : Option String) : Bool :=
  match data with
  | none => false
  | some s => strStartsWith s "0x" && strLength s % 2 == 0

/-- Embedding of `validateQuotePayload` (clawlett swap.js).  The checks run
in source order: quote presence, calldata hex validity, then the two
ethValue safety checks.  The final recipient guard exists in the source as a
throw of `Invalid Safe recipient address`; its guard expression is
reconstructed from the spec (section 4.3): the recipient encoded in the
quote must equal the vault address. -/
def validateQuotePayload (quote : Option QuotePayload) (amountIn : ℤ)
    (safeAddress : String) (isETHIn : Bool) : Except SwapError Unit :=
  match quote with
  | none => .error .missingQuote
  | some q =>
    if requireHexData q.calldata = false then .error .malformedCalldata
    else if isETHIn = false ∧ q.value.getD 0 ≠ 0 then .error .valueOnErc20In
    else if isETHIn = true ∧ q.value.getD 0 > amountIn then
      .error .valueExceedsAmountIn
    else if q.recipient.map strLower ≠ some (strLower safeAddress) then
      .error .badRecipient
    else .ok ()

/-! ## CoW smart slippage (clawlett swap.js, submitCowOrder) -/

/-- Embedding of the smart-slippage computation of `submitCowOrder`
(clawlett swap.js): a fee-proportional term (150 percent of the auction
fee) plus a volume-proportional term (0.5 percent of the sell amount),
converted into buy-token units, with a flat 0.5 percent fallback when the
sell amount is zero.  All divisions are truncating `BigInt` divisions on
non-negative values, i.e. `Nat` division. -/
def cowBuySlippage (feeAmount sellAmount buyAmount : ℕ) : ℕ :=
  let feeSlippage := feeAmount * 3 / 2
  let volumeSlippage := sellAmount * 5 / 1000
  let totalSlippage := feeSlippage + volumeSlippage
  if 0 < sellAmount then totalSlippage * buyAmount / sellAmount
  else buyAmount * 5 / 1000

/-! ## Token resolution (claw-wallet swap.js) -/

/-- On-chain ERC20 metadata returned by the `symbol()` and `decimals()`
calls of a token contract. -/
structure TokenMeta where
  symbol : String
  decimals : ℕ
  deriving DecidableEq, Repr

/-- The read-only chain oracle: the metadata of the contract at an address,
or `none` when the contract calls fail. -/
def Chain : Type := String → Option TokenMeta

/-- A resolved token descriptor (spec section 3). -/
structure TokenDescriptor where
  address : String
  symbol : String
  decimals : ℕ
  verified : Bool
  native : Bool := false
  warning : Option String := none
  deriving DecidableEq, Repr

namespace ClawWallet

/-- The `VERIFIED_TOKENS` object of claw-wallet swap.js, as an ordered
association list of canonical symbol keys to contract addresses. -/
def VERIFIED_TOKENS : List (String × String) := [
  ("ETH", "0x4200000000000000000000000000000000000006"),
  ("WETH", "0x4200000000000000000000000000000000000006"),
  ("USDC", "0x833589fCD6eDb6E08f4c7C32D4f71b54bdA02913"),
  ("USDT", "0xfde4C96c8593536E31F229EA8f37b2ADa2699bb2"),
  ("DAI", "0x50c5725949A6F0c72E6C4a641F24049A917DB0Cb"),
  ("USDS", "0x820C137fa70C8691f0e44Dc420a5e53c168921Dc"),
  ("AERO", "0x940181a94A35A4569E4529A3CDfB74e38FD98631"),
  ("cbBTC", "0xcbB7C0000aB88B473b1f5aFd9ef808440eed33Bf"),
  ("VIRTUAL", "0x0b3e328455c4059EEb9e3f84b5543F74E24e7E1b"),
  ("DEGEN", "0x4ed4E862860beD51a9570b96d89aF5E1B0Efefed"),
  ("BRETT", "0x532f27101965dd16442E59d40670FaF5eBB142E4"),
  ("TOSHI", "0xAC1Bd2486aAf3B5C0fc3Fd868558b082a531B2B4"),
  ("WELL", "0xA88594D404727625A9437C3f886C7643872296AE"),
  ("BID", "0xa1832f7f4e534ae557f9b5ab76de54b1873e498b")]

/-- The `TOKEN_ALIASES` object of claw-wallet swap.js. -/
def TOKEN_ALIASES : List (String × String) := [
  ("ETHEREUM", "ETH"),
  ("ETHER", "ETH"),
  ("USD COIN", "USDC"),
  ("TETHER", "USDT")]

/-- The `PROTECTED_SYMBOLS` array of claw-wallet swap.js, verbatim
(note the mixed-case `cbBTC` entry). -/
def PROTECTED_SYMBOLS : List String :=
  ["ETH", "WETH", "USDC", "USDT", "DAI", "USDS", "AERO", "cbBTC"]

/-- JavaScript object lookup on an association list: the value under an
exactly matching (case-sensitive) key. -/
def objLookup (entries : List (String × String)) (key : String) : Option String :=
  (entries.find? (fun p => p.1 == key)).map (fun p => p.2)

/-- JavaScript `replace \x2f^\$\x2f` on an already-uppercased symbol:
strip one leading dollar sigil. -/
def stripSigil (s : String) : String :=
  if strStartsWith s "$" then ⟨s.data.drop 1⟩ else s

/-- Embedding of `resolveByAddress` (claw-wallet swap.js):
`ethers.getAddress` is modelled as the identity on the well-formed
addresses quantified over here, since the only use of the result is a
case-insensitive comparison against the registry.  The descriptor carries a
warning exactly when the address is not a registry address and the
uppercased on-chain symbol is a member of `PROTECTED_SYMBOLS`. -/
def resolveByAddress (chain : Chain) (address : String) :
    Except SwapError TokenDescriptor :=
  let verifiedEntry := VERIFIED_TOKENS.find?
    (fun p => strLower p.2 == strLower address)
  match chain address with
  | none => .error .contractCallFailed
  | some meta =>
    let warn :=
      if verifiedEntry.isNone ∧ strUpper meta.symbol ∈ PROTECTED_SYMBOLS then
        some ("WARNING: Token has symbol " ++ meta.symbol ++
          " but is NOT the verified token. This could be a SCAM TOKEN.")
      else none
    .ok { address := address, symbol := meta.symbol, decimals := meta.decimals,
          verified := verifiedEntry.isSome, warning := warn }

/-- Embedding of `resolveToken` (claw-wallet swap.js): an address-shaped
input goes through `resolveByAddress`; otherwise the input is uppercased,
stripped of a leading dollar sigil, aliased, and looked up in the verified
registry, whose entry metadata is then read on chain; a protected symbol
with no registry entry is a security error, any other unknown symbol is a
not-found error. -/
def resolveToken (chain : Chain) (input : String) :
    Except SwapError TokenDescriptor :=
  let token := strTrim input
  if strStartsWith token "0x" ∧ strLength token = 42 then
    resolveByAddress chain token
  else
    let symbol := stripSigil (strUpper token)
    let aliased := (objLookup TOKEN_ALIASES symbol).getD symbol
    match objLookup VERIFIED_TOKENS aliased with
    | some address =>
      match chain address with
      | none => .error .contractCallFailed
      | some meta =>
        .ok { address := address, symbol := meta.symbol,
              decimals := meta.decimals, verified := true }
    | none =>
      if aliased ∈ PROTECTED_SYMBOLS then .error (.protectedNoMapping symbol)
      else .error (.tokenNotFound symbol)

/-- A chain oracle for a scam contract that reports the protected symbol
cbBTC from an address that is not the verified cbBTC address. -/
def scamAddress : String := "0x1111111111111111111111111111111111111111"

/-- Metadata served by the scam contract. -/
def scamChain : Chain := fun a =>
  if a == scamAddress then some { symbol := "cbBTC", decimals := 8 } else none

end ClawWallet

/-! ## Allowance management -/

/-- `ethers.MaxUint256`, the unbounded approval ceiling. -/
def maxUint256 : ℕ := 2 ^ 256 - 1

/-- The `ZodiacHelpers` target of clawlett approvals. -/
def ZODIAC_HELPERS : String := "0xc235D2475E4424F277B53D19724E2453a8686C54"

/-- The `ApprovalHelper` target of claw-wallet approvals. -/
def APPROVAL_HELPER : String := "0x55881791383A2ab8Fb6F98267419e83e074fd076"

/-- An approval transaction issued through the role executor. -/
structure ApprovalAction where
  target : String
  token : String
  amount : ℕ
  deriving DecidableEq, Repr

/-- Embedding of `maybeApprove` (clawlett swap.js): no-op for the native
asset; a failed `allowance` call (`none`) is treated as allowance 0; no-op
when the allowance already covers `amountIn`; otherwise one approval whose
amount is `MaxUint256` in max mode and exactly `amountIn` otherwise. -/
def maybeApprove (tokenInNative : Bool) (tokenInAddress : String)
    (allowanceCall : Option ℕ) (amountIn : ℕ) (approveMode : String) :
    Option ApprovalAction :=
  if tokenInNative then none
  else
    let allowance := allowanceCall.getD 0
    if amountIn ≤ allowance then none
    else
      let approvalAmount := if approveMode == "max" then maxUint256 else amountIn
      some { target := ZODIAC_HELPERS, token := tokenInAddress,
             amount := approvalAmount }

/-- Embedding of the approval step of claw-wallet swap.js `main`: no-op for
the ETH-in case; a failed `allowance` call is treated as allowance 0; when
the allowance is below `amountIn` a single approval of `MaxUint256` is
issued, with no mode selection. -/
def clawWalletApproval (isETHIn : Bool) (tokenInAddress : String)
    (allowanceCall : Option ℕ) (amountIn : ℕ) : Option ApprovalAction :=
  if isETHIn then none
  else
    let allowance := allowanceCall.getD 0
    if allowance < amountIn then
      some { target := APPROVAL_HELPER, token := tokenInAddress,
             amount := maxUint256 }
    else none

/-! ## CoW Protocol order construction (clawlett swap.js) -/

namespace Cow

/-- Order-kind hash constant `KIND_SELL`. -/
def KIND_SELL : String :=
  "0xf3b277728b3fee749481eb3e0b3b48980dbbab78658fc419025cb16eee346775"

/-- Order-kind hash constant `KIND_BUY`. -/
def KIND_BUY : String :=
  "0x6ed88e868af0a1983e3886d5f3e95a2fafbd6c3450bc229e27342283dc429ccc"

/-- Balance-type hash constant `BALANCE_ERC20`. -/
def BALANCE_ERC20 : String :=
  "0x5a28e9363bb942b639270062aa6bb295f434bcdfc42c97267bf003f272060dc9"

/-- The quote object returned by the CoW quote endpoint: `none` fields
model absent JSON properties with JavaScript fallback defaults. -/
structure CowQuote where
  sellToken : String
  buyToken : String
  receiver : Option String
  sellAmount : ℕ
  buyAmount : ℕ
  feeAmount : ℕ
  kind : String
  partFillable : Option Bool
  sellTokenBalance : Option String
  buyTokenBalance : Option String
  deriving DecidableEq, Repr

/-- The order document POSTed to the CoW orders endpoint by
`submitCowOrder`.  The content-addressed appData hash is represented by the
slippage value in basis points that determines the metadata document;
`fromAddress` embeds the JSON `from` field. -/
structure CowOrder where
  sellToken : String
  buyToken : String
  receiver : String
  sellAmount : ℕ
  buyAmount : ℤ
  validTo : ℕ
  appDataBips : ℕ
  feeAmount : ℕ
  kind : String
  partFillable : Bool
  sellTokenBalance : String
  buyTokenBalance : String
  signingScheme : String
  signature : String
  fromAddress : String
  deriving DecidableEq, Repr

/-- Embedding of the order construction of `submitCowOrder` (clawlett
swap.js): the buy amount is discounted by the smart slippage (an integer
that may be negative when the slippage exceeds the quoted buy amount, hence
`Int`), `validTo` is the injected deadline, and the submitted `feeAmount`
is the literal zero string. -/
def buildCowOrder (q : CowQuote) (safeAddress : String) (validTo : ℕ) :
    CowOrder :=
  let buySlippage := cowBuySlippage q.feeAmount q.sellAmount q.buyAmount
  let slippageBips := buySlippage * 10000 / q.buyAmount
  { sellToken := q.sellToken
    buyToken := q.buyToken
    receiver := q.receiver.getD safeAddress
    sellAmount := q.sellAmount
    buyAmount := (q.buyAmount : ℤ) - (buySlippage : ℤ)
    validTo := validTo
    appDataBips := slippageBips
    feeAmount := 0
    kind := q.kind
    partFillable := q.partFillable.getD false
    sellTokenBalance := q.sellTokenBalance.getD "erc20"
    buyTokenBalance := q.buyTokenBalance.getD "erc20"
    signingScheme := "presign"
    signature := safeAddress
    fromAddress := safeAddress }

/-- Embedding of `kindToBytes32` (clawlett swap.js). -/
def kindToBytes32 (kind : String) : Except SwapError String :=
  if kind == "sell" then .ok KIND_SELL
  else if kind == "buy" then .ok KIND_BUY
  else .error (.unknownOrderKind kind)

/-- Embedding of `balanceToBytes32` (clawlett swap.js). -/
def balanceToBytes32 (balance : String) : Except SwapError String :=
  if balance == "erc20" then .ok BALANCE_ERC20
  else .error (.unknownBalanceType balance)

/-- The on-chain presign order struct built in clawlett swap.js `main`. -/
structure PresignStruct where
  sellToken : String
  buyToken : String
  receiver : String
  sellAmount : ℕ
  buyAmount : ℤ
  validTo : ℕ
  appDataBips : ℕ
  feeAmount : ℕ
  kind : String
  partFillable : Bool
  sellTokenBalance : String
  buyTokenBalance : String
  deriving DecidableEq, Repr

/-- Embedding of the `orderStruct` construction of clawlett swap.js `main`:
the presigned struct copies the submitted order fields, translating kind
and balance types to their hash constants, with a hard-coded zero
`feeAmount`. -/
def buildPresignStruct (order : CowOrder) (safeAddress : String) :
    Except SwapError PresignStruct :=
  match kindToBytes32 order.kind with
  | .error e => .error e
  | .ok kind =>
  match balanceToBytes32 order.sellTokenBalance with
  | .error e => .error e
  | .ok stb =>
  match balanceToBytes32 order.buyTokenBalance with
  | .error e => .error e
  | .ok btb =>
  .ok { sellToken := order.sellToken
        buyToken := order.buyToken
        receiver := if order.receiver == "" then safeAddress else order.receiver
        sellAmount := order.sellAmount
        buyAmount := order.buyAmount
        validTo := order.validTo
        appDataBips := order.appDataBips
        feeAmount := 0
        kind := kind
        partFillable := order.partFillable
        sellTokenBalance := stb
        buyTokenBalance := btb }

/-- Order status values served by the CoW orders endpoint. -/
inductive OrderStatus where
  | presignPending
  | statusOpen
  | fulfilled
  | expired
  | cancelled
  deriving DecidableEq, Repr

/-- Terminal results of the polling loop. -/
inductive PollResult where
  | fulfilled
  | expired
  | cancelled
  | timedOut
  deriving DecidableEq, Repr

/-- The fixed polling cadence of `pollOrderStatus`, in milliseconds. -/
def pollInterval : ℕ := 5000

/-- One step of the polling loop of `pollOrderStatus` (clawlett swap.js),
with an injected status oracle indexed by query number and a deterministic
clock in which each iteration takes exactly `pollInterval` milliseconds.
The fuel argument bounds the iteration count; it is chosen in
`pollOrderStatus` so that it can only run out at or after the timeout, where
the loop result is `timedOut` either way.  The returned list holds the
elapsed time of each status query performed. -/
def pollAux (statuses : ℕ → OrderStatus) (timeoutMs : ℕ) :
    ℕ → ℕ → ℕ → PollResult × List ℕ
  | 0, _, _ => (.timedOut, [])
  | fuel + 1, i, elapsed =>
    if elapsed < timeoutMs then
      match statuses i with
      | .fulfilled => (.fulfilled, [elapsed])
      | .expired => (.expired, [elapsed])
      | .cancelled => (.cancelled, [elapsed])
      | _ =>
        let rest := pollAux statuses timeoutMs fuel (i + 1)
          (elapsed + pollInterval)
        (rest.1, elapsed :: rest.2)
    else (.timedOut, [])

/-- Embedding of `pollOrderStatus` (clawlett swap.js): poll on a fixed
5-second cadence until a terminal status or the timeout budget elapses. -/
def pollOrderStatus (statuses : ℕ → OrderStatus) (timeoutMs : ℕ) :
    PollResult × List ℕ :=
  pollAux statuses timeoutMs (timeoutMs / pollInterval + 1) 0 0

/-- A sample CoW quote used to instantiate the order-construction
theorems. -/
def sampleCowQuote : CowQuote :=
  { sellToken := "0xa", buyToken := "0xb", receiver := none,
    sellAmount := 1000, buyAmount := 2000, feeAmount := 100, kind := "sell",
    partFillable := none, sellTokenBalance := none, buyTokenBalance := none }

end Cow

/-! ## Main flows as effect traces

The two `main` functions are embedded as pure functions from an environment
(the chain and service state they would observe) to the ordered list of
external calls they perform plus the outcome of the run.  `Effect` distinguishes
read-only calls from state-changing ones. -/

/-- External calls performed by a swap run, in program order. -/
inductive Effect where
  | balanceRead
  | quoteRequest
  | approveTx
  | swapTx
  | appDataRegister
  | orderSubmit
  | wrapTx
  | presignTx
  | statusPoll
  deriving DecidableEq, Repr

/-- Whether an effect mutates external state: approval, swap, wrap and
presign transactions, order submission, and the metadata registration PUT;
balance reads, quote requests and status polls are read-only. -/
def Effect.isStateChanging : Effect → Bool
  | .approveTx => true
  | .swapTx => true
  | .appDataRegister => true
  | .orderSubmit => true
  | .wrapTx => true
  | .presignTx => true
  | _ => false

/-- The Base WETH contract address. -/
def WETH_ADDRESS : String := "0x4200000000000000000000000000000000000006"

/-- The native-asset sentinel address (all-zero, lowercase). -/
def NATIVE_ETH : String := "0x0000000000000000000000000000000000000000"

/-- Environment observed by the claw-wallet Aerodrome `main` flow. -/
structure AeroEnv where
  ethBalance : ℕ
  tokenBalance : String → ℕ
  quote : Option ℕ
  allowanceCall : Option ℕ
  hasAgentKey : Bool
  swapSucceeds : Bool

/-- Outcomes of the claw-wallet Aerodrome `main` flow. -/
inductive AeroOutcome where
  | insufficientBalance
  | quoteFailed
  | quoteOnly (minAmountOut : ℕ)
  | keyMissing
  | swapFailed
  | complete
  deriving DecidableEq, Repr

/-- The balance the claw-wallet flow checks: the native balance of the Safe when
the input token address is the WETH sentinel, otherwise the ERC20 balance
of the input token. -/
def clawWalletBalance (env : AeroEnv) (tokenIn : TokenDescriptor) : ℕ :=
  if strLower tokenIn.address == strLower WETH_ADDRESS then env.ethBalance
  else env.tokenBalance tokenIn.address

/-- Embedding of claw-wallet swap.js `main` from the balance check onward
(token resolution is modelled separately): read the input balance, abort on
insufficiency, fetch the quote, print the summary, stop in quote-only mode,
else load the key, approve when the allowance is short, and submit the
swap. -/
def clawWalletRun (env : AeroEnv) (tokenIn : TokenDescriptor)
    (amountIn slippagePct : ℕ) (execute : Bool) :
    List Effect × AeroOutcome :=
  let isETHIn := strLower tokenIn.address == strLower WETH_ADDRESS
  if clawWalletBalance env tokenIn < amountIn then
    ([.balanceRead], .insufficientBalance)
  else
    match env.quote with
    | none => ([.balanceRead, .quoteRequest], .quoteFailed)
    | some amountOut =>
      let minAmountOut := amountOut * (100 - slippagePct) / 100
      if execute = false then
        ([.balanceRead, .quoteRequest], .quoteOnly minAmountOut)
      else if env.hasAgentKey = false then
        ([.balanceRead, .quoteRequest], .keyMissing)
      else
        let approvalTrace :=
          if isETHIn then []
          else if env.allowanceCall.getD 0 < amountIn then [Effect.approveTx]
          else []
        ([.balanceRead, .quoteRequest] ++ approvalTrace ++ [.swapTx],
          if env.swapSucceeds then .complete else .swapFailed)

/-- Environment observed by the clawlett CoW `main` flow. -/
structure CowEnv where
  ethBalance : ℕ
  wethBalance : ℕ
  tokenBalance : String → ℕ
  cowQuote : Option Cow.CowQuote
  hasAgentKey : Bool
  orderAccepted : Bool
  txSucceeds : Bool
  statuses : ℕ → Cow.OrderStatus

/-- Outcomes of the clawlett CoW `main` flow. -/
inductive CowOutcome where
  | insufficientBalance
  | quoteFailed
  | quoteOnly
  | keyMissing
  | orderRejected
  | txFailed
  | fulfilled
  | expired
  | cancelled
  | timedOut
  deriving DecidableEq, Repr

/-- The ETH-to-WETH input substitution of the CoW flow. -/
def cowTokenIn (tokenIn0 : TokenDescriptor) : TokenDescriptor :=
  if strLower tokenIn0.address == NATIVE_ETH then
    { tokenIn0 with address := WETH_ADDRESS, symbol := "WETH" }
  else tokenIn0

/-- Whether either side of the pair was substituted from the native
sentinel. -/
def cowEthSubstituted (tokenIn0 tokenOut0 : TokenDescriptor) : Bool :=
  (strLower tokenIn0.address == NATIVE_ETH) ||
    (strLower tokenOut0.address == NATIVE_ETH)

/-- The balance-check step of the CoW flow: in the substituted-WETH case
both WETH and ETH balances are read, and the shortfall to be wrapped is
returned; otherwise the input token balance is read.  An `error` result is
the insufficient-balance abort, carrying the trace of reads performed. -/
def cowBalanceStep (env : CowEnv) (tokenIn : TokenDescriptor)
    (ethSubstituted : Bool) (amountIn : ℕ) :
    Except (List Effect) (List Effect × ℕ) :=
  if ethSubstituted && (strLower tokenIn.address == strLower WETH_ADDRESS) then
    if amountIn ≤ env.wethBalance then .ok ([.balanceRead, .balanceRead], 0)
    else if amountIn ≤ env.wethBalance + env.ethBalance then
      .ok ([.balanceRead, .balanceRead], amountIn - env.wethBalance)
    else .error [.balanceRead, .balanceRead]
  else
    if env.tokenBalance tokenIn.address < amountIn then .error [.balanceRead]
    else .ok ([.balanceRead], 0)

/-- Embedding of clawlett CoW swap.js `main` from the substitution step
onward: substitute ETH, check balances, fetch the CoW quote, print the
summary, stop in quote-only mode, else load the key, register the appData
document and submit the order, execute the bundled wrap (when needed) and
presign through the role executor, and poll the order status to a terminal
outcome. -/
def cowRun (env : CowEnv) (tokenIn0 tokenOut0 : TokenDescriptor)
    (amountIn : ℕ) (execute : Bool) (timeoutSec : ℕ) :
    List Effect × CowOutcome :=
  match cowBalanceStep env (cowTokenIn tokenIn0)
      (cowEthSubstituted tokenIn0 tokenOut0) amountIn with
  | .error tr => (tr, .insufficientBalance)
  | .ok (balTrace, wrapAmount) =>
    match env.cowQuote with
    | none => (balTrace ++ [.quoteRequest], .quoteFailed)
    | some _q =>
      if execute = false then (balTrace ++ [.quoteRequest], .quoteOnly)
      else if env.hasAgentKey = false then
        (balTrace ++ [.quoteRequest], .keyMissing)
      else if env.orderAccepted = false then
        (balTrace ++ [.quoteRequest, .appDataRegister, .orderSubmit],
          .orderRejected)
      else
        let wrapTrace := if 0 < wrapAmount then [Effect.wrapTx] else []
        if env.txSucceeds = false then
          (balTrace ++ [.quoteRequest, .appDataRegister, .orderSubmit] ++
            wrapTrace ++ [.presignTx], .txFailed)
        else
          let poll := Cow.pollOrderStatus env.statuses (timeoutSec * 1000)
          let outcome := match poll.1 with
            | .fulfilled => CowOutcome.fulfilled
            | .expired => CowOutcome.expired
            | .cancelled => CowOutcome.cancelled
            | .timedOut => CowOutcome.timedOut
          (balTrace ++ [.quoteRequest, .appDataRegister, .orderSubmit] ++
            wrapTrace ++ [.presignTx] ++
            List.replicate poll.2.length Effect.statusPoll, outcome)

end Swap

namespace Swap

/-- C1: for every slippage fraction in `[0, 0.5]` the minimum-output
computation is exactly `amountOut * (10000 - round(s * 10000)) / 10000`
with truncating integer division, and a fraction outside the range or a
non-finite value yields `InvalidSlippageError`. -/
theorem minAmountOut_spec (s : ℚ) (amountOut : ℕ) :
    (0 ≤ s → s ≤ 1/2 →
      minAmountOutOfSlippage (some s) none amountOut =
        .ok (amountOut * (10000 - (⌊s * 10000 + 1/2⌋).toNat) / 10000)) ∧
    ((s < 0 ∨ 1/2 < s) → parseSlippageBps (some s) = .error .invalidSlippage) ∧
    parseSlippageBps none = .error .invalidSlippage := by
  refine ⟨fun h0 h1 => ?_, fun h => ?_, rfl⟩
  · have hcond : ¬(s < 0 ∨ s > 1/2) := by
      push_neg
      exact ⟨h0, h1⟩
    have hp : parseSlippageBps (some s) = .ok (jsRound (s * 10000)).toNat := by
      show (if s < 0 ∨ s > 1/2 then (.error .invalidSlippage : Except SwapError ℕ)
          else .ok (jsRound (s * 10000)).toNat) = _
      rw [if_neg hcond]
    show parseSlippageBps (some s) >>= _ = _
    rw [hp]
    rfl
  · show (if s < 0 ∨ s > 1/2 then (.error .invalidSlippage : Except SwapError ℕ)
        else .ok (jsRound (s * 10000)).toNat) = _
    rw [if_pos h]

/-- Witness for C1: slippage 1 percent on an output of 350 USDC
(6 decimals) yields 346.5 USDC, and slippage 0.6 is rejected. -/
theorem minAmountOut_spec_witness :
    minAmountOutOfSlippage (some (1/100)) none 350000000 =
      .ok (350000000 * (10000 - (⌊(1/100 : ℚ) * 10000 + 1/2⌋).toNat) / 10000) ∧
    parseSlippageBps (some (3/5)) = .error .invalidSlippage :=
  ⟨(minAmountOut_spec (1/100) 350000000).1 (by norm_num) (by norm_num),
   (minAmountOut_spec (3/5) 350000000).2.1 (Or.inr (by norm_num))⟩

/-- C2: quote validation raises the unsafe-quote error exactly on the two
ethValue grounds: a non-zero ethValue with a non-native input token, and a
native-in ethValue exceeding `amountIn`; in every other ethValue
configuration neither of those two errors is produced. -/
theorem validateQuotePayload_ethValue (q : QuotePayload) (amountIn : ℤ)
    (safe : String) (isETHIn : Bool) :
    (requireHexData q.calldata = true →
      ((isETHIn = false ∧ q.value.getD 0 ≠ 0) →
        validateQuotePayload (some q) amountIn safe isETHIn =
          .error .valueOnErc20In) ∧
      ((isETHIn = true ∧ q.value.getD 0 > amountIn) →
        validateQuotePayload (some q) amountIn safe isETHIn =
          .error .valueExceedsAmountIn)) ∧
    (¬(isETHIn = false ∧ q.value.getD 0 ≠ 0) →
      ¬(isETHIn = true ∧ q.value.getD 0 > amountIn) →
      validateQuotePayload (some q) amountIn safe isETHIn ≠
        .error .valueOnErc20In ∧
      validateQuotePayload (some q) amountIn safe isETHIn ≠
        .error .valueExceedsAmountIn) := by
  constructor
  · intro hhex
    have hh : ¬(requireHexData q.calldata = false) := by simp [hhex]
    constructor
    · intro hcond
      simp only [validateQuotePayload]
      rw [if_neg hh, if_pos hcond]
    · intro hcond
      have hna : ¬(isETHIn = false ∧ q.value.getD 0 ≠ 0) := by
        rintro ⟨hf, -⟩
        rw [hcond.1] at hf
        exact Bool.noConfusion hf
      simp only [validateQuotePayload]
      rw [if_neg hh, if_neg hna, if_pos hcond]
  · intro h1 h2
    simp only [validateQuotePayload]
    split_ifs <;> exact ⟨by simp, by simp⟩

/-- Witness for C2: a valid-hex quote attaching value 7 to an ERC20-in swap
is rejected as unsafe, and a valueless ERC20-in quote is not rejected on
either ethValue ground. -/
theorem validateQuotePayload_ethValue_witness :
    validateQuotePayload
        (some { calldata := some "0x1234", value := some 7, recipient := some "0xabc" })
        100 "0xabc" false = .error .valueOnErc20In ∧
    (validateQuotePayload
        (some { calldata := some "0x1234", value := none, recipient := some "0xabc" })
        100 "0xabc" false ≠ .error .valueOnErc20In ∧
     validateQuotePayload
        (some { calldata := some "0x1234", value := none, recipient := some "0xabc" })
        100 "0xabc" false ≠ .error .valueExceedsAmountIn) :=
  ⟨(validateQuotePayload_ethValue
      { calldata := some "0x1234", value := some 7, recipient := some "0xabc" }
      100 "0xabc" false).1 (by decide) |>.1 (by decide),
   (validateQuotePayload_ethValue
      { calldata := some "0x1234", value := none, recipient := some "0xabc" }
      100 "0xabc" false).2 (by decide) (by decide)⟩

/-- C8: the smart-slippage discount on the buy amount is
`(f * 3 / 2 + s * 5 / 1000) * b / s` in truncating integer arithmetic when
the sell amount is positive, and the flat `b * 5 / 1000` term when the sell
amount is zero, so no division by a zero sell amount is performed. -/
theorem cowBuySlippage_spec (f s b : ℕ) :
    (0 < s → cowBuySlippage f s b = (f * 3 / 2 + s * 5 / 1000) * b / s) ∧
    cowBuySlippage f 0 b = b * 5 / 1000 := by
  constructor
  · intro hs
    simp [cowBuySlippage, hs]
  · simp [cowBuySlippage]

/-- Witness for C8: fee 100, sell 1000, buy 2000 gives a discount of
`(150 + 5) * 2000 / 1000 = 310`. -/
theorem cowBuySlippage_spec_witness :
    cowBuySlippage 100 1000 2000 = (100 * 3 / 2 + 1000 * 5 / 1000) * 2000 / 1000 :=
  (cowBuySlippage_spec 100 1000 2000).1 (by decide)

/-- C5 fails as stated: in the claw-wallet variant there is no approval
mode at all, and the default flow approves the unbounded `MaxUint256`
ceiling even though the caller never selected a max mode — here for an
`amountIn` of 5 with allowance 0. -/
theorem clawWallet_default_approval_escalates :
    clawWalletApproval false "0x833589fCD6eDb6E08f4c7C32D4f71b54bdA02913"
        (some 0) 5 =
      some { target := APPROVAL_HELPER,
             token := "0x833589fCD6eDb6E08f4c7C32D4f71b54bdA02913",
             amount := maxUint256 } ∧
    maxUint256 ≠ 5 :=
  ⟨rfl, by decide⟩

/-- C5 amended: the clawlett `maybeApprove` approves exactly `amountIn`
unless max mode was selected (then `MaxUint256`), and only when the
allowance is short on a non-native input; the claw-wallet variant instead
always approves `MaxUint256` when the allowance is short. -/
theorem approval_mode_amounts (native : Bool) (addr : String)
    (allow : Option ℕ) (amt : ℕ) (mode : String) :
    (native = false → allow.getD 0 < amt →
      maybeApprove native addr allow amt mode =
        some { target := ZODIAC_HELPERS, token := addr,
               amount := if mode == "max" then maxUint256 else amt } ∧
      clawWalletApproval native addr allow amt =
        some { target := APPROVAL_HELPER, token := addr,
               amount := maxUint256 }) ∧
    (native = true ∨ amt ≤ allow.getD 0 →
      maybeApprove native addr allow amt mode = none ∧
      clawWalletApproval native addr allow amt = none) := by
  constructor
  · intro hn hlt
    subst hn
    constructor
    · simp only [maybeApprove]
      rw [if_neg Bool.false_ne_true, if_neg (not_le.mpr hlt)]
    · simp only [clawWalletApproval]
      rw [if_neg Bool.false_ne_true, if_pos hlt]
  · rintro (hn | hle)
    · subst hn
      exact ⟨by simp [maybeApprove], by simp [clawWalletApproval]⟩
    · constructor
      · simp only [maybeApprove]
        split_ifs with h1
        · rfl
        · rfl
      · simp only [clawWalletApproval]
        split_ifs with h1 h2
        · rfl
        · exact absurd h2 (not_lt.mpr hle)
        · rfl

/-- Witness for the amended C5: allowance 0, amount 7, exact mode gives a
clawlett approval of exactly 7 and a claw-wallet approval of the ceiling. -/
theorem approval_mode_amounts_witness :
    maybeApprove false "0xtok" (some 0) 7 "exact" =
      some { target := ZODIAC_HELPERS, token := "0xtok",
             amount := if "exact" == "max" then maxUint256 else 7 } ∧
    clawWalletApproval false "0xtok" (some 0) 7 =
      some { target := APPROVAL_HELPER, token := "0xtok",
             amount := maxUint256 } :=
  (approval_mode_amounts false "0xtok" (some 0) 7 "exact").1 rfl (by decide)

/-- Helper: an insufficient-balance abort of the CoW balance step performed
only one or two balance reads. -/
theorem cowBalanceStep_error_trace (env : CowEnv) (tIn : TokenDescriptor)
    (sub : Bool) (amt : ℕ) (tr : List Effect)
    (h : cowBalanceStep env tIn sub amt = .error tr) :
    tr = [.balanceRead] ∨ tr = [.balanceRead, .balanceRead] := by
  unfold cowBalanceStep at h
  split_ifs at h <;> simp_all

/-- Helper: a successful CoW balance step performed only one or two balance
reads. -/
theorem cowBalanceStep_ok_trace (env : CowEnv) (tIn : TokenDescriptor)
    (sub : Bool) (amt : ℕ) (tr : List Effect) (w : ℕ)
    (h : cowBalanceStep env tIn sub amt = .ok (tr, w)) :
    tr = [.balanceRead] ∨ tr = [.balanceRead, .balanceRead] := by
  unfold cowBalanceStep at h
  split_ifs at h <;> simp_all

/-- Helper: the quote-only claw-wallet run only ever produces a trace of a
balance read possibly followed by a quote request. -/
theorem clawWalletRun_false_trace (aenv : AeroEnv) (tIn : TokenDescriptor)
    (amt slip : ℕ) :
    (clawWalletRun aenv tIn amt slip false).1 = [.balanceRead] ∨
    (clawWalletRun aenv tIn amt slip false).1 =
      [.balanceRead, .quoteRequest] := by
  by_cases hb : clawWalletBalance aenv tIn < amt
  · left
    simp [clawWalletRun, hb]
  · cases hq : aenv.quote with
    | none =>
      right
      simp [clawWalletRun, hb, hq]
    | some a =>
      right
      simp [clawWalletRun, hb, hq]

/-- Helper: the quote-only CoW run only ever produces balance reads
possibly followed by a quote request. -/
theorem cowRun_false_trace (cenv : CowEnv) (tIn2 tOut2 : TokenDescriptor)
    (amt2 tSec : ℕ) :
    (cowRun cenv tIn2 tOut2 amt2 false tSec).1 = [.balanceRead] ∨
    (cowRun cenv tIn2 tOut2 amt2 false tSec).1 =
      [.balanceRead, .balanceRead] ∨
    (cowRun cenv tIn2 tOut2 amt2 false tSec).1 =
      [.balanceRead, .quoteRequest] ∨
    (cowRun cenv tIn2 tOut2 amt2 false tSec).1 =
      [.balanceRead, .balanceRead, .quoteRequest] := by
  rcases hbs : cowBalanceStep cenv (cowTokenIn tIn2)
      (cowEthSubstituted tIn2 tOut2) amt2 with tr | ⟨balTrace, wrap⟩
  · rcases cowBalanceStep_error_trace _ _ _ _ _ hbs with rfl | rfl
    · left
      simp [cowRun, hbs]
    · right; left
      simp [cowRun, hbs]
  · rcases cowBalanceStep_ok_trace _ _ _ _ _ _ hbs with rfl | rfl
    · right; right; left
      cases hq : cenv.cowQuote with
      | none => simp [cowRun, hbs, hq]
      | some a => simp [cowRun, hbs, hq]
    · right; right; right
      cases hq : cenv.cowQuote with
      | none => simp [cowRun, hbs, hq]
      | some a => simp [cowRun, hbs, hq]

/-- Helper: the first external call of the claw-wallet run is always the
balance read. -/
theorem clawWalletRun_head (aenv : AeroEnv) (tIn : TokenDescriptor)
    (amt slip : ℕ) (ex : Bool) :
    (clawWalletRun aenv tIn amt slip ex).1.head? =
      some Effect.balanceRead := by
  by_cases hb : clawWalletBalance aenv tIn < amt
  · simp [clawWalletRun, hb]
  · cases hq : aenv.quote with
    | none => simp [clawWalletRun, hb, hq]
    | some a =>
      by_cases hex : ex = false
      · simp [clawWalletRun, hb, hq, hex]
      · by_cases hk : aenv.hasAgentKey = false
        · simp [clawWalletRun, hb, hq, hex, hk]
        · simp [clawWalletRun, hb, hq, hex, hk]

/-- Helper: the first external call of the CoW run is always a balance
read. -/
theorem cowRun_head (cenv : CowEnv) (tIn2 tOut2 : TokenDescriptor)
    (amt2 tSec : ℕ) (ex : Bool) :
    (cowRun cenv tIn2 tOut2 amt2 ex tSec).1.head? =
      some Effect.balanceRead := by
  rcases hbs : cowBalanceStep cenv (cowTokenIn tIn2)
      (cowEthSubstituted tIn2 tOut2) amt2 with tr | ⟨balTrace, wrap⟩
  · rcases cowBalanceStep_error_trace _ _ _ _ _ hbs with rfl | rfl <;>
      simp [cowRun, hbs]
  · rcases cowBalanceStep_ok_trace _ _ _ _ _ _ hbs with rfl | rfl <;>
    · cases hq : cenv.cowQuote with
      | none => simp [cowRun, hbs, hq]
      | some a =>
        by_cases hex : ex = false
        · simp [cowRun, hbs, hq, hex]
        · by_cases hk : cenv.hasAgentKey = false
          · simp [cowRun, hbs, hq, hex, hk]
          · by_cases ho : cenv.orderAccepted = false
            · simp [cowRun, hbs, hq, hex, hk, ho]
            · by_cases htx : cenv.txSucceeds = false
              · simp [cowRun, hbs, hq, hex, hk, ho, htx]
              · simp [cowRun, hbs, hq, hex, hk, ho, htx]

/-- Helper: in a trace whose first call is the balance read, any quote
request comes strictly later. -/
theorem head_balanceRead_indexOf_lt (l : List Effect)
    (hh : l.head? = some Effect.balanceRead)
    (hm : Effect.quoteRequest ∈ l) :
    l.indexOf Effect.balanceRead < l.indexOf Effect.quoteRequest := by
  cases l with
  | nil => cases hm
  | cons a t =>
    have ha : a = Effect.balanceRead := by
      simpa using hh
    subst ha
    rw [List.indexOf_cons_self]
    rw [List.indexOf_cons_ne _ (by decide : Effect.balanceRead ≠ Effect.quoteRequest)]
    exact Nat.succ_pos _

/-- C6: a run without the execute flag performs no state-changing call in
either flow: no approval, no swap, no order submission, no wrap and no
presignature — only balance reads and a quote request. -/
theorem quoteOnly_no_state_change (aenv : AeroEnv) (cenv : CowEnv)
    (tIn tIn2 tOut2 : TokenDescriptor) (amt slip amt2 tSec : ℕ) :
    (∀ e ∈ (clawWalletRun aenv tIn amt slip false).1,
      e.isStateChanging = false) ∧
    (∀ e ∈ (cowRun cenv tIn2 tOut2 amt2 false tSec).1,
      e.isStateChanging = false) := by
  constructor
  · intro e he
    rcases clawWalletRun_false_trace aenv tIn amt slip with h | h <;>
      rw [h] at he <;> simp at he
    · subst he; rfl
    · rcases he with rfl | rfl <;> rfl
  · intro e he
    rcases cowRun_false_trace cenv tIn2 tOut2 amt2 tSec with h | h | h | h <;>
      rw [h] at he <;> simp at he
    · subst he; rfl
    · subst he; rfl
    · rcases he with rfl | rfl <;> rfl
    · rcases he with rfl | rfl <;> rfl

/-- Witness for C6: a concrete quote-only run whose whole trace is
read-only. -/
theorem quoteOnly_no_state_change_witness :
    Effect.isStateChanging .balanceRead = false :=
  (quoteOnly_no_state_change
      { ethBalance := 0, tokenBalance := fun _ => 10, quote := some 100,
        allowanceCall := some 0, hasAgentKey := true, swapSucceeds := true }
      { ethBalance := 0, wethBalance := 0, tokenBalance := fun _ => 10,
        cowQuote := none, hasAgentKey := true, orderAccepted := true,
        txSucceeds := true, statuses := fun _ => .statusOpen }
      { address := "0xa", symbol := "A", decimals := 18, verified := true }
      { address := "0xa", symbol := "A", decimals := 18, verified := true }
      { address := "0xb", symbol := "B", decimals := 18, verified := true }
      5 1 5 60).1 .balanceRead (by decide)

/-- C7: in both flows an insufficient input balance aborts the run with the
insufficient-balance outcome before any quote request is issued, and in
every run the balance read strictly precedes any quote request in the
trace. -/
theorem balance_check_precedes_quote (aenv : AeroEnv) (cenv : CowEnv)
    (tIn tIn2 tOut2 : TokenDescriptor) (amt slip amt2 tSec : ℕ)
    (ex ex2 : Bool) :
    (clawWalletBalance aenv tIn < amt →
      clawWalletRun aenv tIn amt slip ex =
        ([.balanceRead], .insufficientBalance) ∧
      Effect.quoteRequest ∉ (clawWalletRun aenv tIn amt slip ex).1) ∧
    (Effect.quoteRequest ∈ (clawWalletRun aenv tIn amt slip ex).1 →
      (clawWalletRun aenv tIn amt slip ex).1.indexOf Effect.balanceRead <
        (clawWalletRun aenv tIn amt slip ex).1.indexOf Effect.quoteRequest) ∧
    (∀ tr, cowBalanceStep cenv (cowTokenIn tIn2)
        (cowEthSubstituted tIn2 tOut2) amt2 = .error tr →
      cowRun cenv tIn2 tOut2 amt2 ex2 tSec = (tr, .insufficientBalance) ∧
      Effect.quoteRequest ∉ (cowRun cenv tIn2 tOut2 amt2 ex2 tSec).1) ∧
    (Effect.quoteRequest ∈ (cowRun cenv tIn2 tOut2 amt2 ex2 tSec).1 →
      (cowRun cenv tIn2 tOut2 amt2 ex2 tSec).1.indexOf Effect.balanceRead <
        (cowRun cenv tIn2 tOut2 amt2 ex2 tSec).1.indexOf
          Effect.quoteRequest) := by
  refine ⟨fun hb => ?_, fun hm => ?_, fun tr htr => ?_, fun hm => ?_⟩
  · have h : clawWalletRun aenv tIn amt slip ex =
        ([.balanceRead], .insufficientBalance) := by
      simp [clawWalletRun, hb]
    refine ⟨h, ?_⟩
    rw [h]
    decide
  · exact head_balanceRead_indexOf_lt _ (clawWalletRun_head aenv tIn amt slip ex) hm
  · have h : cowRun cenv tIn2 tOut2 amt2 ex2 tSec =
        (tr, .insufficientBalance) := by
      simp [cowRun, htr]
    refine ⟨h, ?_⟩
    rw [h]
    rcases cowBalanceStep_error_trace _ _ _ _ _ htr with rfl | rfl <;> decide
  · exact head_balanceRead_indexOf_lt _ (cowRun_head cenv tIn2 tOut2 amt2 tSec ex2) hm

/-- Witness for C7: with a zero token balance and amount 5 both flows abort
with the insufficient-balance outcome. -/
theorem balance_check_precedes_quote_witness :
    clawWalletRun
        { ethBalance := 0, tokenBalance := fun _ => 0, quote := some 100,
          allowanceCall := some 0, hasAgentKey := true, swapSucceeds := true }
        { address := "0xa", symbol := "A", decimals := 18, verified := true }
        5 1 true =
      ([.balanceRead], .insufficientBalance) ∧
    cowRun
        { ethBalance := 0, wethBalance := 0, tokenBalance := fun _ => 0,
          cowQuote := some Cow.sampleCowQuote, hasAgentKey := true,
          orderAccepted := true, txSucceeds := true,
          statuses := fun _ => .statusOpen }
        { address := "0xa", symbol := "A", decimals := 18, verified := true }
        { address := "0xb", symbol := "B", decimals := 18, verified := true }
        5 true 60 =
      ([.balanceRead], .insufficientBalance) := by
  constructor
  · exact ((balance_check_precedes_quote
      { ethBalance := 0, tokenBalance := fun _ => 0, quote := some 100,
        allowanceCall := some 0, hasAgentKey := true, swapSucceeds := true }
      { ethBalance := 0, wethBalance := 0, tokenBalance := fun _ => 0,
        cowQuote := some Cow.sampleCowQuote, hasAgentKey := true,
        orderAccepted := true, txSucceeds := true,
        statuses := fun _ => .statusOpen }
      { address := "0xa", symbol := "A", decimals := 18, verified := true }
      { address := "0xa", symbol := "A", decimals := 18, verified := true }
      { address := "0xb", symbol := "B", decimals := 18, verified := true }
      5 1 5 60 true true).1 (by decide)).1
  · exact ((balance_check_precedes_quote
      { ethBalance := 0, tokenBalance := fun _ => 0, quote := some 100,
        allowanceCall := some 0, hasAgentKey := true, swapSucceeds := true }
      { ethBalance := 0, wethBalance := 0, tokenBalance := fun _ => 0,
        cowQuote := some Cow.sampleCowQuote, hasAgentKey := true,
        orderAccepted := true, txSucceeds := true,
        statuses := fun _ => .statusOpen }
      { address := "0xa", symbol := "A", decimals := 18, verified := true }
      { address := "0xa", symbol := "A", decimals := 18, verified := true }
      { address := "0xb", symbol := "B", decimals := 18, verified := true }
      5 1 5 60 true true).2.2.1 [.balanceRead] rfl).1

/-- C9: when the first two status queries report open and the third reports
fulfilled within the timeout budget, the polling loop terminates with the
fulfilled result after exactly three status queries, performed at the fixed
5000-millisecond cadence (elapsed times 0, 5000 and 10000). -/
theorem pollOrderStatus_three_queries (statuses : ℕ → Cow.OrderStatus)
    (timeoutMs : ℕ)
    (h0 : statuses 0 = .statusOpen) (h1 : statuses 1 = .statusOpen)
    (h2 : statuses 2 = .fulfilled) (ht : 2 * Cow.pollInterval < timeoutMs) :
    Cow.pollOrderStatus statuses timeoutMs =
      (.fulfilled, [0, Cow.pollInterval, 2 * Cow.pollInterval]) := by
  have hI : Cow.pollInterval = 5000 := rfl
  rw [hI] at ht
  obtain ⟨k, hk⟩ : ∃ k, timeoutMs / Cow.pollInterval + 1 = k + 3 := by
    refine ⟨timeoutMs / Cow.pollInterval - 2, ?_⟩
    rw [hI]
    omega
  have ht0 : (0 : ℕ) < timeoutMs := by omega
  have ht1 : (5000 : ℕ) < timeoutMs := by omega
  have ht2 : (10000 : ℕ) < timeoutMs := by omega
  unfold Cow.pollOrderStatus
  rw [hk]
  simp [Cow.pollAux, hI, h0, h1, h2, ht0, ht1, ht2]

/-- Witness for C9: a status oracle that is open for the first two queries
and fulfilled afterwards, with the default 30-minute timeout. -/
theorem pollOrderStatus_three_queries_witness :
    Cow.pollOrderStatus
        (fun i => if i < 2 then .statusOpen else .fulfilled) 1800000 =
      (.fulfilled, [0, Cow.pollInterval, 2 * Cow.pollInterval]) :=
  pollOrderStatus_three_queries (fun i => if i < 2 then .statusOpen else .fulfilled)
    1800000 rfl rfl rfl (by decide)

/-- C10: the order document submitted to the auction API and the on-chain
presign struct both carry a feeAmount of exactly zero for every quote,
whatever fee the quote service returned; the quoted fee enters only through
the smart-slippage discount of the buy amount. -/
theorem cow_feeAmount_zero (q : Cow.CowQuote) (safe : String) (validTo : ℕ) :
    (Cow.buildCowOrder q safe validTo).feeAmount = 0 ∧
    (∀ ps, Cow.buildPresignStruct (Cow.buildCowOrder q safe validTo) safe =
        .ok ps → ps.feeAmount = 0) ∧
    (Cow.buildCowOrder q safe validTo).buyAmount =
      (q.buyAmount : ℤ) -
        (cowBuySlippage q.feeAmount q.sellAmount q.buyAmount : ℤ) := by
  refine ⟨rfl, ?_, rfl⟩
  intro ps hps
  unfold Cow.buildPresignStruct at hps
  cases hkv : Cow.kindToBytes32 (Cow.buildCowOrder q safe validTo).kind with
  | error e => rw [hkv] at hps; simp at hps
  | ok kv =>
    rw [hkv] at hps
    cases hsv : Cow.balanceToBytes32
        (Cow.buildCowOrder q safe validTo).sellTokenBalance with
    | error e => rw [hsv] at hps; simp at hps
    | ok sv =>
      rw [hsv] at hps
      cases hbv : Cow.balanceToBytes32
          (Cow.buildCowOrder q safe validTo).buyTokenBalance with
      | error e => rw [hbv] at hps; simp at hps
      | ok bv =>
        rw [hbv] at hps
        simp only [Except.ok.injEq] at hps
        subst hps
        rfl

/-- Witness for C10: the sample quote with fee 100, sell 1000, buy 2000
yields a presign struct whose feeAmount is zero. -/
theorem cow_feeAmount_zero_witness :
    Cow.PresignStruct.feeAmount
      { sellToken := "0xa", buyToken := "0xb", receiver := "0xsafe",
        sellAmount := 1000, buyAmount := 1690, validTo := 500,
        appDataBips := 1550, feeAmount := 0, kind := Cow.KIND_SELL,
        partFillable := false, sellTokenBalance := Cow.BALANCE_ERC20,
        buyTokenBalance := Cow.BALANCE_ERC20 } = 0 :=
  (cow_feeAmount_zero Cow.sampleCowQuote "0xsafe" 500).2.1 _ rfl

/-- C3 fails on the code: cbBTC is in the protected-symbol set, yet
resolving the symbol reference cbBTC throws `TokenNotFoundError` for every
chain oracle (the uppercased lookup key CBBTC matches neither the
mixed-case registry key cbBTC nor the mixed-case protected-set entry),
instead of returning the registry descriptor the claim requires. -/
theorem resolveToken_cbBTC_not_found (chain : Chain) :
    "cbBTC" ∈ ClawWallet.PROTECTED_SYMBOLS ∧
    ClawWallet.resolveToken chain "cbBTC" =
      .error (.tokenNotFound "CBBTC") := by
  exact ⟨by decide, rfl⟩

/-- C4 fails on the code: an address whose on-chain symbol is the protected
symbol cbBTC but which is not the verified cbBTC address resolves without
throwing and with `verified = false`, yet carries no warning, because the
uppercased on-chain symbol CBBTC is not a member of the mixed-case
protected-symbol array. -/
theorem resolveByAddress_cbBTC_no_warning :
    ClawWallet.resolveByAddress ClawWallet.scamChain ClawWallet.scamAddress =
      .ok { address := ClawWallet.scamAddress, symbol := "cbBTC", decimals := 8,
            verified := false, native := false, warning := none } := by
  rfl

end Swap
